import Mathlib

/-!
Shallow embedding of src/autoscaling/ml_autoscaler.py.

Python floats are modelled as rationals, Python ints as integers, and
fallible external calls (Prometheus queries, Kubernetes reads) as
Except-valued oracles handed to the functions that consume them; a
function that catches an exception internally is embedded as a total
function on those oracles.  The definitions follow the source:

  NetworkMetricsCollector.get_ping_metrics     -> get_ping_metrics
  NetworkMetricsCollector.get_iperf3_metrics   -> get_iperf3_metrics
  NetworkMetricsCollector.get_pod_metrics      -> get_pod_metrics
  MLPredictor.add_data_point                   -> add_data_point
  MLPredictor.train_model (fit guard)          -> train_model_fits
  MLPredictor.predict_load                     -> predict_load
  VNFAutoscaler.get_current_replicas           -> get_current_replicas
  VNFAutoscaler.calculate_desired_replicas     -> calculate_desired_replicas
  VNFAutoscaler.run_autoscaling_loop           -> load_score, fit_performed,
                                                  iteration_actuations
-/

set_option maxRecDepth 8000

/-- Truncation toward zero of a rational, the semantics of the Python
builtin int() applied to a float. -/
def pyInt (q : ℚ) : ℤ := q.num.tdiv q.den

/-- self.min_replicas in VNFAutoscaler.__init__. -/
def minReplicas : ℤ := 2

/-- self.max_replicas in VNFAutoscaler.__init__. -/
def maxReplicas : ℤ := 10

/-- The tiered scale factor of VNFAutoscaler.calculate_desired_replicas:
1.5 above load 80, 1.2 above 60, 0.8 below 30, else 1.0. -/
def scaleFactor (predicted_load : ℚ) : ℚ :=
  if predicted_load > 80 then 3/2
  else if predicted_load > 60 then 6/5
  else if predicted_load < 30 then 4/5
  else 1

/-- desired_replicas = int(current_replicas * scale_factor), before the
clamp, in VNFAutoscaler.calculate_desired_replicas. -/
def desired_candidate (current_replicas : ℤ) (predicted_load : ℚ) : ℤ :=
  pyInt ((current_replicas : ℚ) * scaleFactor predicted_load)

/-- VNFAutoscaler.calculate_desired_replicas: the candidate clamped by
max(self.min_replicas, min(self.max_replicas, desired_replicas)). -/
def calculate_desired_replicas (current_replicas : ℤ) (predicted_load : ℚ) : ℤ :=
  max minReplicas (min maxReplicas (desired_candidate current_replicas predicted_load))

/-- VNFAutoscaler.get_current_replicas: returns deployment.spec.replicas,
or self.min_replicas when the Kubernetes read raises. -/
def get_current_replicas (read_result : Except Unit ℤ) : ℤ :=
  match read_result with
  | Except.ok replicas => replicas
  | Except.error _ => minReplicas

/-- The composite load score computed inline in run_autoscaling_loop:
((cpu/100)*0.3 + (memory/100)*0.3 + (ping/200)*0.2 + (throughput/100)*0.2)*100. -/
def load_score (cpu_usage memory_usage ping_latency throughput : ℚ) : ℚ :=
  ((cpu_usage / 100) * 0.3 + (memory_usage / 100) * 0.3 +
   (ping_latency / 200) * 0.2 + (throughput / 100) * 0.2) * 100

/-- Following the words of the spec, for comparison with load_score:
the same weighted sum but with the latency and throughput terms capped
at 100 (that is, at 1 on the normalized scale) before weighting. -/
def load_score_capped_spec (cpu_usage memory_usage ping_latency throughput : ℚ) : ℚ :=
  ((cpu_usage / 100) * 0.3 + (memory_usage / 100) * 0.3 +
   (min (ping_latency / 200) 1) * 0.2 + (min (throughput / 100) 1) * 0.2) * 100

/-- MLPredictor.add_data_point: append features and target, then pop the
front of both histories when the features history exceeds 100 entries. -/
def add_data_point (features_history : List (List ℚ)) (target_history : List ℚ)
    (features : List ℚ) (target : ℚ) : List (List ℚ) × List ℚ :=
  let fh := features_history ++ [features]
  let th := target_history ++ [target]
  if 100 < fh.length then (fh.drop 1, th.drop 1) else (fh, th)

/-- A whole sequence of add_data_point calls starting from the empty
histories of MLPredictor.__init__. -/
def run_appends (points : List (List ℚ × ℚ)) : List (List ℚ) × List ℚ :=
  points.foldl (fun s pt => add_data_point s.1 s.2 pt.1 pt.2) ([], [])

/-- A concrete sequence of 101 data points, point i carrying features [i]
and target i. -/
def pts101 : List (List ℚ × ℚ) :=
  (List.range 101).map (fun i => ([(i : ℚ)], (i : ℚ)))

/-- The guard in MLPredictor.train_model: the fit runs only when the
history holds at least 10 points; below that it returns False unfitted. -/
def train_model_fits (history_len : ℕ) : Bool := decide (10 ≤ history_len)

/-- The trigger in run_autoscaling_loop: train_model is called when
len(self.predictor.features_history) % 20 == 0. -/
def loop_triggers_training (history_len : ℕ) : Bool := history_len % 20 == 0

/-- A model fit actually happens on an iteration exactly when the loop
trigger fires and the train_model guard passes. -/
def fit_performed (history_len : ℕ) : Bool :=
  loop_triggers_training history_len && train_model_fits history_len

/-- MLPredictor.predict_load.  The sklearn model call is an oracle:
some p models model.predict returning p, none models it raising.  The
Python function returns current_features[-1] when untrained or on a
model exception, and max(0, prediction) otherwise; it never returns
None, so every branch of the embedding is a some. -/
def predict_load (is_trained : Bool) (model_result : Option ℚ)
    (current_features : List ℚ) : Option ℚ :=
  if is_trained then
    match model_result with
    | some prediction => some (max 0 prediction)
    | none => some (current_features.getLastD 0)
  else some (current_features.getLastD 0)

/-- One iteration of run_autoscaling_loop as it bears on actuation: the
wall-clock time of the iteration (which the code never consults), the
replica counts read for the two targets, and the predicted load. -/
structure LoopIteration where
  time : ℚ
  smf_replicas : ℤ
  upf_replicas : ℤ
  predicted_load : ℚ

/-- How many scale_deployment calls an iteration performs: one per target
whose computed desired count differs from its current count. -/
def iteration_actuations (it : LoopIteration) : ℕ :=
  (if calculate_desired_replicas it.smf_replicas it.predicted_load ≠ it.smf_replicas
     then 1 else 0) +
  (if calculate_desired_replicas it.upf_replicas it.predicted_load ≠ it.upf_replicas
     then 1 else 0)

/-- Total actuations over a trace of iterations. -/
def trace_actuations (trace : List LoopIteration) : ℕ :=
  (trace.map iteration_actuations).sum

/-- np.mean over a list of rationals. -/
def np_mean (values : List ℚ) : ℚ := values.sum / values.length

/-- NetworkMetricsCollector.get_ping_metrics: first sample times 1000,
0.0 for an empty result, 0.0 when the query raises. -/
def get_ping_metrics (query_result : Except Unit (List ℚ)) : ℚ :=
  match query_result with
  | Except.ok (v :: _) => v * 1000
  | Except.ok [] => 0
  | Except.error _ => 0

/-- NetworkMetricsCollector.get_iperf3_metrics: sum of the values of the
smf and upf pods (the Bool marks a matching pod name) divided by 1024*1024,
0.0 when the query raises. -/
def get_iperf3_metrics (query_result : Except Unit (List (Bool × ℚ))) : ℚ :=
  match query_result with
  | Except.ok data =>
      (data.foldl (fun acc m => if m.1 then acc + m.2 else acc) 0) / (1024 * 1024)
  | Except.error _ => 0

/-- NetworkMetricsCollector.get_pod_metrics: the cpu query runs first,
then the memory query; an exception in either yields (0.0, 0.0), and an
empty series yields 0.0 for its own average. -/
def get_pod_metrics (cpu_query : Except Unit (List ℚ))
    (memory_query : Except Unit (List ℚ)) : ℚ × ℚ :=
  match cpu_query with
  | Except.error _ => (0, 0)
  | Except.ok cpu_data =>
    match memory_query with
    | Except.error _ => (0, 0)
    | Except.ok memory_data =>
        (if cpu_data ≠ [] then np_mean cpu_data else 0,
         if memory_data ≠ [] then np_mean memory_data else 0)

/-- The collection phase of run_autoscaling_loop: the four raw signals
(ping latency, throughput, cpu, memory) assembled from the three
collector calls.  Totality of this function embeds the fact that no
exception escapes the collectors. -/
def collect_features (ping_query : Except Unit (List ℚ))
    (throughput_query : Except Unit (List (Bool × ℚ)))
    (cpu_query memory_query : Except Unit (List ℚ)) : ℚ × ℚ × ℚ × ℚ :=
  let ping_latency := get_ping_metrics ping_query
  let throughput := get_iperf3_metrics throughput_query
  let pod := get_pod_metrics cpu_query memory_query
  (ping_latency, throughput, pod.1, pod.2)

theorem pyInt_intCast (n : ℤ) : pyInt (n : ℚ) = n := by
  rw [pyInt, Rat.num_intCast, Rat.den_intCast]
  simp

theorem pyInt_eval_int (q : ℚ) (n : ℤ) (h : q = (n : ℚ)) : pyInt q = n := by
  rw [h, pyInt_intCast]

theorem pyInt_nonneg_floor (q : ℚ) (h : 0 ≤ q) : pyInt q = ⌊q⌋ := by
  rw [pyInt, Int.tdiv_eq_ediv (Rat.num_nonneg.mpr h) (by positivity), Rat.floor_def]

theorem scaleFactor_high (p : ℚ) (h : 80 < p) : scaleFactor p = 3/2 := by
  rw [scaleFactor, if_pos h]

theorem scaleFactor_mid (p : ℚ) (h1 : 30 ≤ p) (h2 : p ≤ 60) : scaleFactor p = 1 := by
  rw [scaleFactor, if_neg (by linarith), if_neg (by linarith), if_neg (by linarith)]

theorem scaleFactor_at_66 : scaleFactor 66 = 6/5 := by
  rw [scaleFactor, if_neg (by norm_num), if_pos (by norm_num)]

theorem calc_2_90 : calculate_desired_replicas 2 90 = 3 := by
  rw [calculate_desired_replicas, desired_candidate, scaleFactor_high 90 (by norm_num),
    pyInt_eval_int _ 3 (by norm_num)]
  decide

theorem calc_8_90 : calculate_desired_replicas 8 90 = 10 := by
  rw [calculate_desired_replicas, desired_candidate, scaleFactor_high 90 (by norm_num),
    pyInt_eval_int _ 12 (by norm_num)]
  decide

theorem calc_10_90 : calculate_desired_replicas 10 90 = 10 := by
  rw [calculate_desired_replicas, desired_candidate, scaleFactor_high 90 (by norm_num),
    pyInt_eval_int _ 15 (by norm_num)]
  decide

theorem calc_5_66 : calculate_desired_replicas 5 66 = 6 := by
  rw [calculate_desired_replicas, desired_candidate, scaleFactor_at_66,
    pyInt_eval_int _ 6 (by norm_num)]
  decide

theorem desired_3_90 : desired_candidate 3 90 = 4 := by
  rw [desired_candidate, scaleFactor_high 90 (by norm_num)]
  rw [show ((3 : ℤ) : ℚ) * (3/2) = (9 : ℚ)/2 by norm_num, pyInt]
  norm_num [Rat.num_div_den]
  decide

theorem run_appends_step (points : List (List ℚ × ℚ)) (pt : List ℚ × ℚ) :
    run_appends (points ++ [pt]) =
      add_data_point (run_appends points).1 (run_appends points).2 pt.1 pt.2 := by
  rw [run_appends, run_appends, List.foldl_append]
  rfl

theorem run_appends_eq (points : List (List ℚ × ℚ)) :
    run_appends points =
      ((points.map Prod.fst).drop (points.length - 100),
       (points.map Prod.snd).drop (points.length - 100)) := by
  induction points using List.reverseRecOn with
  | nil => rfl
  | append_singleton pts pt ih =>
    rw [run_appends_step, ih, add_data_point]
    simp only [List.map_append, List.map_cons, List.map_nil, List.length_append,
      List.length_cons, List.length_nil]
    by_cases hlen : pts.length < 100
    · rw [if_neg]
      · have h0 : pts.length - 100 = 0 := by omega
        have h1 : pts.length + 1 - 100 = 0 := by omega
        rw [h0, h1]
        simp
      · have h0 : pts.length - 100 = 0 := by omega
        rw [h0]
        simp only [List.drop_zero, List.length_append, List.length_map,
          List.length_cons, List.length_nil]
        omega
    · have hge : 100 ≤ pts.length := by omega
      have hA : ((pts.map Prod.fst).drop (pts.length - 100)).length = 100 := by
        rw [List.length_drop, List.length_map]
        omega
      have hB : ((pts.map Prod.snd).drop (pts.length - 100)).length = 100 := by
        rw [List.length_drop, List.length_map]
        omega
      rw [if_pos]
      · have step1 :
            (((pts.map Prod.fst).drop (pts.length - 100)) ++ [pt.1]).drop 1 =
              ((pts.map Prod.fst).drop (pts.length - 100)).drop 1 ++ [pt.1] :=
          List.drop_append_of_le_length (by omega)
        have step2 :
            (((pts.map Prod.snd).drop (pts.length - 100)) ++ [pt.2]).drop 1 =
              ((pts.map Prod.snd).drop (pts.length - 100)).drop 1 ++ [pt.2] :=
          List.drop_append_of_le_length (by omega)
        have step3 : ((pts.map Prod.fst).drop (pts.length - 100)).drop 1 =
            (pts.map Prod.fst).drop (pts.length + 1 - 100) := by
          rw [List.drop_drop]
          congr 1
          omega
        have step4 : ((pts.map Prod.snd).drop (pts.length - 100)).drop 1 =
            (pts.map Prod.snd).drop (pts.length + 1 - 100) := by
          rw [List.drop_drop]
          congr 1
          omega
        have step5 : ((pts.map Prod.fst) ++ [pt.1]).drop (pts.length + 1 - 100) =
            (pts.map Prod.fst).drop (pts.length + 1 - 100) ++ [pt.1] :=
          List.drop_append_of_le_length (by rw [List.length_map]; omega)
        have step6 : ((pts.map Prod.snd) ++ [pt.2]).drop (pts.length + 1 - 100) =
            (pts.map Prod.snd).drop (pts.length + 1 - 100) ++ [pt.2] :=
          List.drop_append_of_le_length (by rw [List.length_map]; omega)
        rw [step1, step2, step3, step4, step5, step6]
      · rw [hA]
        omega

/-- Claim C1 counterexample: with target_load 60 and predicted_score 66 the
ratio 66/60 = 1.1 lies in the dead band [0.8, 1.1] claimed by the spec, yet
at current_replicas = 5 the code computes a desired count of 6 and so
proposes a replica change instead of returning absent. -/
theorem deadband_counterexample :
    (0.8 : ℚ) ≤ 66/60 ∧ (66 : ℚ)/60 ≤ 1.1 ∧
      calculate_desired_replicas 5 66 = 6 ∧ calculate_desired_replicas 5 66 ≠ 5 := by
  refine ⟨by norm_num, by norm_num, calc_5_66, ?_⟩
  rw [calc_5_66]
  decide

/-- Claim C1 amended: the no-change band of the code is its factor-1.0 tier,
ratio in [0.8, 1.0] rather than [0.8, 1.1]: for target_load 60, any
predicted_score in [48, 60] with the current count already inside
[min_replicas, max_replicas] leaves the desired count equal to the current
count, so no replica change is proposed. -/
theorem deadband_amended (c : ℤ) (p : ℚ) (h1 : 48 ≤ p) (h2 : p ≤ 60)
    (hc1 : minReplicas ≤ c) (hc2 : c ≤ maxReplicas) :
    calculate_desired_replicas c p = c := by
  rw [calculate_desired_replicas, desired_candidate,
    scaleFactor_mid p (by linarith) h2, mul_one, pyInt_intCast]
  simp only [minReplicas, maxReplicas] at hc1 hc2 ⊢
  omega

theorem deadband_amended_witness : calculate_desired_replicas 5 50 = 5 :=
  deadband_amended 5 50 (by norm_num) (by norm_num) (by decide) (by decide)

/-- Claim C2 counterexample: two scale-worthy iterations 10 seconds apart
(times 0 and 10, SMF read at 2 with predicted load 90) each actuate, for a
total of 2 actuations, not the exactly 1 that a 45-second cooldown gate
would permit. -/
theorem cooldown_counterexample :
    trace_actuations [⟨0, 2, 10, 90⟩, ⟨10, 2, 10, 90⟩] = 2 ∧ (2 : ℕ) ≠ 1 := by
  constructor
  · rw [trace_actuations]
    simp only [List.map_cons, List.map_nil, iteration_actuations]
    rw [calc_2_90, calc_10_90]
    norm_num
  · decide

/-- Claim C2 amended: run_autoscaling_loop has no cooldown gate at all.
Whether an iteration actuates depends only on the replica counts it reads
and on the predicted load, never on the time elapsed since any earlier
actuation, and every iteration whose desired count differs from the
current count actuates; in particular each of two identical scale-worthy
iterations actuates, whatever their times. -/
theorem cooldown_amended :
    (∀ (t t' : ℚ) (c u : ℤ) (p : ℚ),
        iteration_actuations ⟨t, c, u, p⟩ = iteration_actuations ⟨t', c, u, p⟩) ∧
    (∀ t : ℚ, iteration_actuations ⟨t, 2, 10, 90⟩ = 1) := by
  constructor
  · intro t t' c u p
    rfl
  · intro t
    rw [iteration_actuations]
    simp only
    rw [calc_2_90, calc_10_90]
    norm_num

/-- Claim C3 counterexample: with is_trained false, predict_load on the
feature list [1, 2, 3, 42] returns the last feature, some 42, not the
absent result the spec claims for the untrained model. -/
theorem predict_untrained_counterexample :
    predict_load false none [1, 2, 3, 42] = some 42 ∧
      predict_load false none [1, 2, 3, 42] ≠ none := by
  constructor
  · rfl
  · intro h
    simp [predict_load] at h

/-- Claim C3 amended: predict_load never returns absent and never raises:
whatever the model oracle and features, it returns a value; when
is_trained is false (as is the case for at least the first 19 appended
samples, the first fit occurring at the 20th) or when the model raises,
that value is the last feature, the memory-usage signal, and when the
trained model returns p the value is max 0 p.  No window-length check on
the history exists. -/
theorem predict_amended :
    ∀ (b : Bool) (mp : Option ℚ) (cf : List ℚ),
      (predict_load b mp cf).isSome = true ∧
      predict_load false mp cf = some (cf.getLastD 0) ∧
      (∀ p : ℚ, predict_load true (some p) cf = some (max 0 p)) := by
  intro b mp cf
  refine ⟨?_, ?_, ?_⟩
  · cases b <;> cases mp <;> simp [predict_load]
  · simp [predict_load]
  · intro p
    simp [predict_load]

/-- Claim C4 counterexample: after 101 appends the features history holds
100 entries, not the 101 that a capacity of 1000 (first eviction only
past the 1000th append) would leave. -/
theorem history_capacity_counterexample :
    pts101.length = 101 ∧ (run_appends pts101).1.length = 100 ∧
      (run_appends pts101).1.length ≠ 101 := by
  refine ⟨by decide, ?_, ?_⟩
  · rw [run_appends_eq]
    decide
  · rw [run_appends_eq]
    decide

/-- Claim C4 amended: the history capacity is 100, not 1000: for every
sequence of appends both histories stay at 100 entries or fewer, and the
retained entries are exactly the most recent 100 in insertion order, so
the evicted entries are exactly the oldest ones, strict FIFO. -/
theorem history_bound_amended (points : List (List ℚ × ℚ)) :
    (run_appends points).1.length ≤ 100 ∧
    (run_appends points).2.length ≤ 100 ∧
    (run_appends points).1 = (points.map Prod.fst).drop (points.length - 100) ∧
    (run_appends points).2 = (points.map Prod.snd).drop (points.length - 100) := by
  rw [run_appends_eq]
  refine ⟨?_, ?_, rfl, rfl⟩
  · rw [List.length_drop, List.length_map]
    omega
  · rw [List.length_drop, List.length_map]
    omega

/-- Claim C5 counterexample: at history length 30 the claim (fit exactly
when length is at least 20 and divisible by 10) predicts a fit, but the
loop only calls train_model at multiples of 20, so no fit happens. -/
theorem retrain_cadence_counterexample :
    fit_performed 30 = false ∧ 20 ≤ 30 ∧ 30 % 10 = 0 := by
  decide

/-- Claim C5 amended: a fit is performed exactly when the history length
is divisible by 20 and at least 20: the loop calls train_model at
multiples of 20 and train_model itself fits only from 10 points up, which
for a multiple of 20 means from 20 up.  In particular no fit happens
before the 20th appended sample. -/
theorem retrain_cadence_amended (n : ℕ) :
    fit_performed n = true ↔ (n % 20 = 0 ∧ 20 ≤ n) := by
  rw [fit_performed, loop_triggers_training, train_model_fits]
  simp only [Bool.and_eq_true, beq_iff_eq, decide_eq_true_eq]
  omega

theorem retrain_cadence_amended_witness :
    fit_performed 40 = true ∧ (40 % 20 = 0 ∧ 20 ≤ 40) :=
  ⟨(retrain_cadence_amended 40).mpr (by decide), by decide⟩

/-- Claim C6 counterexample: at cpu 0, memory 0, latency 400, throughput 0
the code computes a score of 40, while the capped formula of the spec
gives 20: the latency term is not capped at 100 before weighting. -/
theorem composite_cap_counterexample :
    load_score 0 0 400 0 = 40 ∧ load_score_capped_spec 0 0 400 0 = 20 ∧
      load_score 0 0 400 0 ≠ load_score_capped_spec 0 0 400 0 := by
  refine ⟨by norm_num [load_score], ?_, ?_⟩
  · rw [load_score_capped_spec]
    rw [show min ((400 : ℚ)/200) 1 = 1 by rw [min_eq_right]; norm_num]
    norm_num
  · rw [show load_score 0 0 400 0 = 40 by norm_num [load_score]]
    rw [load_score_capped_spec]
    rw [show min ((400 : ℚ)/200) 1 = 1 by rw [min_eq_right]; norm_num]
    norm_num

/-- Claim C6 amended: the composite score is the deterministic fixed
weighted sum of cpu/100, memory/100, latency/200 and throughput/100 with
weights 0.3, 0.3, 0.2, 0.2 summing to 1.0, but the latency and throughput
terms are not capped: the score grows without bound in the latency
signal, exceeding any value. -/
theorem composite_score_amended :
    ((0.3 : ℚ) + 0.3 + 0.2 + 0.2 = 1) ∧
    (∀ cpu mem ping thr : ℚ,
        load_score cpu mem ping thr =
          ((cpu / 100) * 0.3 + (mem / 100) * 0.3 +
           (ping / 200) * 0.2 + (thr / 100) * 0.2) * 100) ∧
    (∀ M : ℚ, ∃ ping, M < load_score 0 0 ping 0) := by
  refine ⟨by norm_num, fun cpu mem ping thr => rfl, fun M => ⟨10 * M + 10, ?_⟩⟩
  rw [load_score]
  ring_nf
  linarith

/-- Claim C7 counterexample: at current_replicas 3, predicted_score 90,
target_load 60 the ratio 3/2 exceeds 1.1 and the claimed candidate is
ceil(3 * 3/2) = 5, but the code truncates: its pre-clamp candidate is
int(3 * 1.5) = 4. -/
theorem scaleup_ceil_counterexample :
    (1.1 : ℚ) < 90/60 ∧ desired_candidate 3 90 = 4 ∧
      (⌈(3 : ℚ) * (90/60)⌉ : ℤ) = 5 ∧
      desired_candidate 3 90 ≠ ⌈(3 : ℚ) * (90/60)⌉ := by
  have hceil : (⌈(3 : ℚ) * (90/60)⌉ : ℤ) = 5 := by
    rw [show (3 : ℚ) * (90/60) = 9/2 by norm_num, Int.ceil_eq_iff]
    constructor <;> norm_num
  refine ⟨by norm_num, desired_3_90, hceil, ?_⟩
  rw [desired_3_90, hceil]
  decide

/-- Claim C7 amended: whenever predicted_load exceeds 80 (as the cited
example 90 does) the pre-clamp candidate equals the floor of
current_replicas * 1.5, truncation rather than ceil of current * ratio;
the cited example current_replicas = 2, predicted_score = 90 still
decides 3, because int(2 * 1.5) = 3 as well. -/
theorem scaleup_rule_amended :
    (∀ (c : ℤ) (p : ℚ), 0 ≤ c → 80 < p →
        desired_candidate c p = ⌊(c : ℚ) * (3/2)⌋) ∧
    calculate_desired_replicas 2 90 = 3 := by
  constructor
  · intro c p hc hp
    rw [desired_candidate, scaleFactor_high p hp]
    exact pyInt_nonneg_floor _ (mul_nonneg (by exact_mod_cast hc) (by norm_num))
  · exact calc_2_90

theorem scaleup_rule_amended_witness :
    desired_candidate 3 90 = ⌊(3 : ℚ) * (3/2)⌋ ∧ calculate_desired_replicas 2 90 = 3 :=
  ⟨scaleup_rule_amended.1 3 90 (by decide) (by norm_num), scaleup_rule_amended.2⟩

/-- Claim C8, confirmed: for every current replica count and every
predicted load the decision lies in [min_replicas, max_replicas] =
[2, 10], and the cited example current_replicas = 8 with predicted_score
90 (target_load 60, factor tier 1.5) clamps int(12) to 10. -/
theorem replica_clamping :
    (∀ (c : ℤ) (p : ℚ),
        minReplicas ≤ calculate_desired_replicas c p ∧
        calculate_desired_replicas c p ≤ maxReplicas) ∧
    calculate_desired_replicas 8 90 = 10 := by
  constructor
  · intro c p
    rw [calculate_desired_replicas]
    exact ⟨le_max_left _ _, max_le (by decide) (min_le_left _ _)⟩
  · exact calc_8_90

/-- Claim C9, confirmed: the collection phase is total on every
combination of query outcomes, and a failure of any single one of the
four metric queries (ping, throughput, cpu, memory) leaves the
corresponding signal at 0.0; no exception escapes a collector, each
failing branch producing its default instead. -/
theorem collect_graceful_degradation :
    (∀ tq cq mq, (collect_features (Except.error ()) tq cq mq).1 = 0) ∧
    (∀ pq cq mq, (collect_features pq (Except.error ()) cq mq).2.1 = 0) ∧
    (∀ pq tq mq, (collect_features pq tq (Except.error ()) mq).2.2.1 = 0) ∧
    (∀ pq tq cq, (collect_features pq tq cq (Except.error ())).2.2.2 = 0) := by
  refine ⟨?_, ?_, ?_, ?_⟩
  · intro tq cq mq
    rfl
  · intro pq cq mq
    rfl
  · intro pq tq mq
    simp only [collect_features, get_pod_metrics]
  · intro pq tq cq
    simp only [collect_features, get_pod_metrics]
    cases cq <;> rfl

/-- Claim C10, confirmed: when the Kubernetes read of a deployment fails,
get_current_replicas returns min_replicas = 2 rather than the
authoritative count, and the scaling decision of that iteration is then
computed against the fixed default 2; on a successful read it returns
the read count. -/
theorem replica_read_failure_default :
    get_current_replicas (Except.error ()) = 2 ∧
    (∀ p : ℚ,
        calculate_desired_replicas (get_current_replicas (Except.error ())) p =
          calculate_desired_replicas 2 p) ∧
    (∀ r : ℤ, get_current_replicas (Except.ok r) = r) := by
  exact ⟨rfl, fun p => rfl, fun r => rfl⟩
